import Mathlib

/-!
Verification of `scripts/auto_merge.py`, the Dependabot auto-merge decision
helper.  The Python functions are shallowly embedded as executable Lean
definitions: machine strings become `String`/`List Char`, regular-expression
searches become hand-written backtracking matchers with Python's
leftmost/greedy semantics, `os.environ`/CLI inputs become `Option String` and
`Option Int` arguments, and the external GitHub surface (comment store,
auto-merge GraphQL mutations, badge fetch) becomes explicit oracles.
-/

/-! ## Python character classes and small string helpers (ASCII fragment) -/

/-- Python `\s` / `str.isspace` on the ASCII range. -/
def pyIsSpace (c : Char) : Bool :=
  c == ' ' || c == '\t' || c == '\n' || c == '\r' || c == '\x0b' || c == '\x0c'

/-- Python `\d` on the ASCII range. -/
def pyIsDigit (c : Char) : Bool :=
  '0' ≤ c && c ≤ '9'

/-- Maximal-munch of a character class: the longest prefix satisfying `p`,
paired with the remainder.  Models a greedy `X+`/`X*` whose continuation can
never succeed on a character of the class (so no backtracking is needed). -/
def munch (p : Char → Bool) : List Char → List Char × List Char
  | [] => ([], [])
  | c :: cs =>
    if p c then
      let r := munch p cs
      (c :: r.1, r.2)
    else ([], c :: cs)

/-- Python `str.strip()` (ASCII whitespace fragment). -/
def pyStrip (l : List Char) : List Char :=
  ((l.dropWhile pyIsSpace).reverse.dropWhile pyIsSpace).reverse

/-- Python `str.lower()` (ASCII fragment). -/
def pyLower (s : String) : String :=
  String.mk (s.data.map Char.toLower)

/-- Numeric value of a list of decimal digit characters. -/
def digitsToNat (ds : List Char) : Nat :=
  ds.foldl (fun n c => 10 * n + (c.toNat - 48)) 0

/-! ## Python `int(str)` -/

/-- Digit tail of an integer literal: decimal digits, optionally separated by
single underscores (Python allows `1_000`, rejects `1__0`, `1_`, `_1`). -/
def pyDigitsCore : List Char → Nat → Option Nat
  | [], acc => some acc
  | '_' :: c :: rest, acc =>
    if pyIsDigit c then pyDigitsCore rest (10 * acc + (c.toNat - 48)) else none
  | c :: rest, acc =>
    if pyIsDigit c then pyDigitsCore rest (10 * acc + (c.toNat - 48)) else none

/-- Nonempty run of decimal digits with optional single underscores. -/
def pyIntDigits : List Char → Option Nat
  | [] => none
  | c :: rest =>
    if pyIsDigit c then pyDigitsCore rest (c.toNat - 48) else none

/-- Python `int(s)`: optional surrounding whitespace, optional sign, decimal
digits (ASCII fragment).  `none` models a raised `ValueError`. -/
def pyInt (s : String) : Option Int :=
  match pyStrip s.data with
  | '+' :: rest => (pyIntDigits rest).map Int.ofNat
  | '-' :: rest => (pyIntDigits rest).map (fun n => -(Int.ofNat n : Int))
  | rest => (pyIntDigits rest).map Int.ofNat

/-! ## ThresholdResolver: `load_threshold` and `prepare_env`

`load_threshold(event_inputs)` reads the workflow-dispatch input
`compat_threshold`, then `DEPENDABOT_COMPAT_THRESHOLD`, then
`DEFAULT_COMPAT_THRESHOLD`, then the literal `"80"`, taking the first truthy
(present and non-empty) value, and finally applies `int(...)`, falling back to
`80` if that single chosen string fails to parse.  `prepare_env(args)` runs
first and, when a CLI `--compat-threshold` is given, overwrites the
`DEPENDABOT_COMPAT_THRESHOLD` environment variable with its decimal string. -/

/-- Python truthiness filter on an optional string: `None` and `""` are
falsy, every other string is kept. -/
def truthyStr : Option String → Option String
  | none => none
  | some s => if s = "" then none else some s

/-- `load_threshold` (auto_merge.py lines 104-121). `dispatch` is
`event_inputs.get("compat_threshold")`, the other two arguments are the
primary and fallback environment variables. -/
def load_threshold (dispatch env_primary env_fallback : Option String) : Int :=
  let threshold_str :=
    match truthyStr dispatch with
    | some s => s
    | none =>
      match truthyStr env_primary with
      | some s => s
      | none =>
        match truthyStr env_fallback with
        | some s => s
        | none => "80"
  match pyInt threshold_str with
  | some v => v
  | none => 80

/-- Effect of `prepare_env` (lines 525-528) on the primary environment
variable: an explicit CLI override is written over
`DEPENDABOT_COMPAT_THRESHOLD` before `load_threshold` runs. -/
def prepare_env_primary (override : Option Int) (env_primary : Option String) :
    Option String :=
  match override with
  | some o => some (toString o)
  | none => env_primary

/-- End-to-end threshold resolution as `main` performs it: `prepare_env`
followed by `load_threshold`. -/
def resolve (override : Option Int)
    (workflow_input env_primary env_fallback : Option String) : Int :=
  load_threshold workflow_input (prepare_env_primary override env_primary)
    env_fallback

/-- The precedence the code actually implements, written out from the spec
side for comparison: workflow-dispatch input first, then the CLI override
(because it was written into the primary environment variable), then the
primary variable, then the fallback, then `"80"`; the single selected string
is parsed and an unparsable selection yields the default `80` directly. -/
def resolve_spec (override : Option Int)
    (workflow_input env_primary env_fallback : Option String) : Int :=
  let chosen :=
    match truthyStr workflow_input with
    | some s => s
    | none =>
      match override with
      | some o => toString o
      | none =>
        match truthyStr env_primary with
        | some s => s
        | none =>
          match truthyStr env_fallback with
          | some s => s
          | none => "80"
  match pyInt chosen with
  | some v => v
  | none => 80

/-- Fuel-indexed digit accumulation never shrinks the accumulator. -/
theorem toDigitsCore_length_ge (f : Nat) :
    ∀ (n : Nat) (ds : List Char),
      ds.length ≤ (Nat.toDigitsCore 10 f n ds).length := by
  induction f with
  | zero => intro n ds; simp [Nat.toDigitsCore]
  | succ f ih =>
    intro n ds
    simp only [Nat.toDigitsCore]
    split
    · simp
    · exact le_trans (by simp) (ih (n / 10) _)

/-- The decimal rendering of a natural number is a nonempty string. -/
theorem nat_repr_length_pos (n : Nat) : 1 ≤ (Nat.repr n).length := by
  have h1 : 1 ≤ (Nat.toDigits 10 n).length := by
    unfold Nat.toDigits
    simp only [Nat.toDigitsCore]
    split
    · simp
    · exact le_trans (by simp) (toDigitsCore_length_ge n (n / 10) _)
  simpa [Nat.repr, List.asString, String.length] using h1

/-- The decimal rendering of an integer is never the empty string. -/
theorem int_toString_ne_empty (o : Int) : toString o ≠ "" := by
  have hnat : ∀ n : Nat, Nat.repr n ≠ "" := by
    intro n h
    have := nat_repr_length_pos n
    rw [h] at this
    simp [String.length] at this
  cases o with
  | ofNat n =>
    simpa [toString] using hnat n
  | negSucc n =>
    intro h
    have := congrArg (fun s => s.data.length) h
    simp [toString, String.data_append] at this

/-- C1, counterexample.  `resolve` with override=75, workflow_input="60",
env_primary="50" returns 60, not the 75 the claim requires: the
workflow-dispatch input outranks the CLI override, because `prepare_env` only
writes the override into the primary environment variable, which
`load_threshold` consults second.  Moreover a non-empty source that fails to
parse ("abc") forces the default 80 instead of falling through to the next
source ("50"). -/
theorem resolve_precedence_cex :
    resolve (some 75) (some "60") (some "50") none = 60 ∧ (60 : Int) ≠ 75 ∧
    resolve none (some "abc") (some "50") none = 80 ∧ (80 : Int) ≠ 50 := by
  refine ⟨?_, by decide, ?_, by decide⟩ <;> rfl

/-- C1 (corrected): the resolved threshold obeys the precedence
workflow-dispatch input > explicit CLI override (written over the primary
environment variable) > primary environment variable > fallback environment
variable > default 80, where a source is present when non-empty; the single
selected source is then parsed as an integer and an unparsable selection
yields the default 80 directly, with no fall-through to lower-precedence
sources.  In particular resolve(override=75, workflow_input="60",
env_primary="50") returns 60. -/
theorem resolve_precedence_amended :
    (∀ (override : Option Int) (wi ep ef : Option String),
       resolve override wi ep ef = resolve_spec override wi ep ef) ∧
    resolve (some 75) (some "60") (some "50") none = 60 := by
  constructor
  · intro override wi ep ef
    cases override with
    | none => rfl
    | some o =>
      unfold resolve resolve_spec load_threshold prepare_env_primary
      have h : truthyStr (some (toString o)) = some (toString o) := by
        simp [truthyStr, int_toString_ne_empty o]
      rw [h]
  · rfl

/-! ## DecisionEngine: `compute_decision` and the branch structure of
`run_decision_flow`

`get_compat_score` returns either a Python `int` or the string `"unkown"`, so
the value flowing into `compute_decision` is modelled by `PyScore`. -/

/-- The Python value `compat_score` holds: an `int` or a `str`. -/
inductive PyScore where
  | int (n : Int)
  | str (s : String)
deriving DecidableEq

/-- `compute_decision` (lines 218-229): patch upgrades always qualify;
minor upgrades qualify when the score is an `int` (the `isinstance` check)
at least the threshold. -/
def compute_decision (upgrade_type : String) (compat_score : PyScore)
    (threshold : Int) : Bool :=
  (upgrade_type == "Patch") ||
    ((upgrade_type == "Minor") &&
      (match compat_score with
       | PyScore.int n => decide (threshold ≤ n)
       | PyScore.str _ => false))

/-- The three run outcomes. -/
inductive Decision where
  | Skipped
  | Allow
  | ManualReviewRequired
deriving DecidableEq

/-- The decision structure of `run_decision_flow` (lines 435-440 and 514):
skip label first, then `should_merge and is_dependabot`, else manual
review. -/
def decide_impl (classification : String) (confidence : PyScore)
    (threshold : Int) (has_skip_label is_automated_author : Bool) : Decision :=
  if has_skip_label then Decision.Skipped
  else if compute_decision classification confidence threshold
      && is_automated_author then Decision.Allow
  else Decision.ManualReviewRequired

/-- Spec-side helper: the confidence is a present numeric value at least the
threshold. -/
def presentGE (confidence : PyScore) (threshold : Int) : Bool :=
  match confidence with
  | PyScore.int n => decide (threshold ≤ n)
  | PyScore.str _ => false

/-- The decision rules as the claim words them, in order: skip label wins;
a patch is allowed exactly for an automated author; a minor with a present
numeric confidence at least the threshold is allowed for an automated
author; everything else requires manual review. -/
def decide_spec (classification : String) (confidence : PyScore)
    (threshold : Int) (has_skip_label is_automated_author : Bool) : Decision :=
  if has_skip_label then Decision.Skipped
  else if classification = "Patch" then
    (if is_automated_author then Decision.Allow
     else Decision.ManualReviewRequired)
  else if classification = "Minor" && presentGE confidence threshold
      && is_automated_author then Decision.Allow
  else Decision.ManualReviewRequired

/-- C3 (confirmed): for every tuple of inputs the implemented decision equals
the claimed rule order — Skipped on the skip label regardless of the rest;
Patch allowed exactly when the author is automated; Minor allowed when the
confidence is a present numeric value at least the (inclusive) threshold and
the author is automated; ManualReviewRequired in every other case, including
Major with any confidence.  The concrete conjuncts check the inclusive
threshold and the Major case from the spec examples. -/
theorem decide_matches_spec :
    (∀ (c : String) (conf : PyScore) (th : Int) (skip auto : Bool),
       decide_impl c conf th skip auto = decide_spec c conf th skip auto) ∧
    decide_impl "Minor" (PyScore.int 80) 80 false true = Decision.Allow ∧
    decide_impl "Major" (PyScore.int 99) 80 false true
      = Decision.ManualReviewRequired := by
  refine ⟨?_, by decide, by decide⟩
  intro c conf th skip auto
  unfold decide_impl decide_spec compute_decision presentGE
  cases skip with
  | true => rfl
  | false =>
    by_cases hp : c = "Patch" <;> by_cases hm : c = "Minor" <;>
      cases conf <;> cases auto <;> simp_all

/-! ## Skip-label matching (`handle_skip_label`, lines 297-301) -/

/-- The label test of `handle_skip_label`: the configured label name (the
`NO_AUTO_MERGE_LABEL` environment variable, defaulting to "no-auto-merge") is
lowercased and looked up among the lowercased proposal label names. -/
def handle_skip_label_bool (no_auto_merge_label : Option String)
    (labels : List String) : Bool :=
  let skip_label := pyLower (no_auto_merge_label.getD "no-auto-merge")
  (labels.map pyLower).contains skip_label

/-- C10 (confirmed): for every configured skip-label name and every list of
proposal labels, the run decision is Skipped exactly when some proposal label
equals the configured name after lowercasing both sides; with the default
configuration, the label "No-Auto-Merge" triggers the skip. -/
theorem skip_label_case_insensitive :
    (∀ (name : String) (labels : List String) (ut : String) (conf : PyScore)
       (th : Int) (auto : Bool),
       decide_impl ut conf th (handle_skip_label_bool (some name) labels) auto
           = Decision.Skipped
         ↔ ∃ l ∈ labels, pyLower l = pyLower name) ∧
    handle_skip_label_bool none ["No-Auto-Merge"] = true := by
  refine ⟨?_, by decide⟩
  intro name labels ut conf th auto
  have hskip : decide_impl ut conf th
      (handle_skip_label_bool (some name) labels) auto = Decision.Skipped
      ↔ handle_skip_label_bool (some name) labels = true := by
    constructor
    · intro h
      by_contra hb
      rw [Bool.not_eq_true] at hb
      unfold decide_impl at h
      rw [hb] at h
      simp only [Bool.false_eq_true, if_false] at h
      split at h <;> simp_all
    · intro h
      unfold decide_impl
      rw [h]
      rfl
  rw [hskip]
  unfold handle_skip_label_bool
  simp only [Option.getD, List.contains_iff_exists_mem_beq, List.mem_map]
  constructor
  · rintro ⟨x, ⟨l, hl, rfl⟩, hb⟩
    exact ⟨l, hl, (beq_iff_eq.mp hb).symm⟩
  · rintro ⟨l, hl, he⟩
    exact ⟨pyLower l, ⟨l, hl, rfl⟩, by simp [he]⟩

/-! ## ConfidenceExtractor: `get_compat_score` (lines 60-78)

The function has a single strategy: find the markdown badge
`[![Dependabot compatibility score](URL)]` (case-insensitive, `.*` greedy for
the URL), fetch the URL, and search the fetched text for
`<title>compatibility: N%</title>` (case-sensitive).  `requests.get` is an
oracle: a success carries the response text; a `ValueError`-family failure
(e.g. a malformed URL) is caught by the `except ValueError` clause; any other
exception propagates to the caller. -/

/-- Consume a case-insensitive literal (given lowercased) and return the
rest. -/
def litCI : List Char → List Char → Option (List Char)
  | [], s => some s
  | _ :: _, [] => none
  | l :: ls, c :: cs => if c.toLower == l then litCI ls cs else none

/-- Consume an exact literal and return the rest. -/
def litExact : List Char → List Char → Option (List Char)
  | [], s => some s
  | _ :: _, [] => none
  | l :: ls, c :: cs => if c == l then litExact ls cs else none

/-- Length of the maximal prefix a regex `.` can cross (everything up to the
first newline). -/
def maxDotLen (s : List Char) : Nat :=
  (s.takeWhile (fun c => c != '\n')).length

/-- Try to close the badge group at exactly `d` consumed characters: the next
two characters must be the literal tail of the pattern. -/
def badgeClose (d : Nat) (r : List Char) : Option (List Char) :=
  match r.drop d with
  | ')' :: ']' :: _ => some (r.take d)
  | _ => none

/-- Greedy `(.*)\)\]`: try the longest group first, shrinking on failure. -/
def badgeGroupLens : Nat → List Char → Option (List Char)
  | 0, r => badgeClose 0 r
  | Nat.succ d, r =>
    match badgeClose (d + 1) r with
    | some g => some g
    | none => badgeGroupLens d r

/-- The literal head of the badge pattern, lowercased. -/
def badgeLit : List Char := "[![dependabot compatibility score](".data

/-- Attempt the whole badge pattern anchored at the given position. -/
def badgeTryAt (s : List Char) : Option (List Char) :=
  match litCI badgeLit s with
  | some r => badgeGroupLens (maxDotLen r) r
  | none => none

/-- `re.search` for the badge pattern: leftmost matching position wins. -/
def badgeSearch : List Char → Option (List Char)
  | [] => none
  | c :: cs =>
    match badgeTryAt (c :: cs) with
    | some g => some g
    | none => badgeSearch cs

/-- The literal head of the SVG title pattern (case-sensitive). -/
def titleLit : List Char := "<title>compatibility: ".data

/-- The literal tail of the SVG title pattern. -/
def titlePct : List Char := "%</title>".data

/-- Attempt `<title>compatibility: (\d+)%</title>` anchored at the given
position; `\d+` is maximal-munch since `%` is not a digit. -/
def titleTryAt (s : List Char) : Option Nat :=
  match litExact titleLit s with
  | none => none
  | some r =>
    let p := munch pyIsDigit r
    if p.1.isEmpty then none
    else
      match litExact titlePct p.2 with
      | some _ => some (digitsToNat p.1)
      | none => none

/-- `re.search` for the SVG title pattern. -/
def titleSearchRun : List Char → Option Nat
  | [] => none
  | c :: cs =>
    match titleTryAt (c :: cs) with
    | some n => some n
    | none => titleSearchRun cs

/-- Outcome of the `requests.get` oracle. -/
inductive FetchResult where
  | ok (text : String)
  | valueError
  | otherError

/-- What `get_compat_score` does from its caller's point of view: return a
Python value (an `int` or a `str`), or raise. -/
inductive ScoreResult where
  | val (v : PyScore)
  | raised
deriving DecidableEq

/-- `get_compat_score` (lines 60-78): search the body for the badge link; on
a match fetch the URL and scan the response for the title pattern.  Only
`ValueError` is caught, so any other fetch exception propagates; when nothing
yields a number the function returns the string `"unkown"`. -/
def get_compat_score (fetch : String → FetchResult) (body : String) :
    ScoreResult :=
  match badgeSearch body.data with
  | none => ScoreResult.val (PyScore.str "unkown")
  | some url =>
    match fetch (String.mk url) with
    | FetchResult.otherError => ScoreResult.raised
    | FetchResult.valueError => ScoreResult.val (PyScore.str "unkown")
    | FetchResult.ok svg =>
      match titleSearchRun svg.data with
      | some n => ScoreResult.val (PyScore.int (Int.ofNat n))
      | none => ScoreResult.val (PyScore.str "unkown")

/-- C2 (code_bug): evaluated at the failing inputs, the extraction returns
the string placeholder `"unkown"` for a score-free description instead of a
typed absence, and a fetch failure outside the `ValueError` family while
following the badge reference raises to the caller instead of degrading. -/
theorem compat_score_placeholder_bug :
    get_compat_score (fun _ => FetchResult.ok "") ""
        = ScoreResult.val (PyScore.str "unkown") ∧
    get_compat_score (fun _ => FetchResult.otherError)
        "[![Dependabot compatibility score](https://u)]"
        = ScoreResult.raised := by
  exact ⟨rfl, rfl⟩

/-- C5, counterexample.  A description containing the plain text
"Compatibility score: 92%" but no badge reference yields the placeholder
string, not 92: the code has no direct textual extraction strategy. -/
theorem compat_score_no_textual_strategy_cex :
    get_compat_score (fun _ => FetchResult.ok "") "Compatibility score: 92%"
        = ScoreResult.val (PyScore.str "unkown") ∧
    ScoreResult.val (PyScore.str "unkown")
        ≠ ScoreResult.val (PyScore.int 92) := by
  exact ⟨rfl, by decide⟩

/-- C5 (corrected): extraction has only the indirect badge strategy.  A
description whose score appears only as direct text ("Compatibility score:
92%") yields the `"unkown"` placeholder without any score, while a badge
reference whose fetched resource contains `<title>compatibility: 92%</title>`
yields 92. -/
theorem compat_score_badge_only :
    get_compat_score (fun _ => FetchResult.ok "") "Compatibility score: 92%"
        = ScoreResult.val (PyScore.str "unkown") ∧
    get_compat_score
        (fun u => if u = "https://d.dev/b.svg" then
            FetchResult.ok "<svg><title>compatibility: 92%</title></svg>"
          else FetchResult.otherError)
        "[![Dependabot compatibility score](https://d.dev/b.svg)]"
        = ScoreResult.val (PyScore.int 92) := by
  exact ⟨rfl, rfl⟩

/-! ## VersionClassifier: `parse_version` and `get_upgrade_type`

`get_upgrade_type` (lines 35-57) searches the title for
`bump\s+.+\s+from\s+([0-9]+\.[0-9]+\.[0-9]+)\s+to\s+([0-9]+\.[0-9]+\.[0-9]+)`
case-insensitively.  The only genuine backtracking points of that pattern are
the first `\s+` and the `.+` (a `.` also matches whitespace), which are
greedy; every other quantifier is followed by a character its own class
rejects, so maximal munch is exact there.  `parse_version` (lines 28-32)
re-parses a captured group against `^(\d+)\.(\d+)\.(\d+)(?:[-+].*)?$` after
`strip()`. -/

/-- Deterministic match of `(\d+\.\d+\.\d+)` at the head of the input,
returning the captured text and the remainder. -/
def matchVer (s : List Char) : Option (List Char × List Char) :=
  let p1 := munch pyIsDigit s
  if p1.1.isEmpty then none else
  match p1.2 with
  | '.' :: r2 =>
    let p2 := munch pyIsDigit r2
    if p2.1.isEmpty then none else
    match p2.2 with
    | '.' :: r4 =>
      let p3 := munch pyIsDigit r4
      if p3.1.isEmpty then none else
      some (p1.1 ++ '.' :: p2.1 ++ '.' :: p3.1, p3.2)
    | _ => none
  | _ => none

/-- Deterministic `\s+`: at least one whitespace character, maximal munch. -/
def spacesPlus (s : List Char) : Option (List Char) :=
  let p := munch pyIsSpace s
  if p.1.isEmpty then none else some p.2

/-- The lowercased literal `from`. -/
def fromLit : List Char := "from".data

/-- The lowercased literal `to`. -/
def toLit : List Char := "to".data

/-- The deterministic tail of the bump pattern:
`\s+from\s+(\d+\.\d+\.\d+)\s+to\s+(\d+\.\d+\.\d+)`, anchored at the current
position, returning the two captured groups. -/
def matchFromTail (s : List Char) : Option (List Char × List Char) :=
  (spacesPlus s).bind fun r1 =>
  (litCI fromLit r1).bind fun r2 =>
  (spacesPlus r2).bind fun r3 =>
  (matchVer r3).bind fun p1 =>
  (spacesPlus p1.2).bind fun r5 =>
  (litCI toLit r5).bind fun r6 =>
  (spacesPlus r6).bind fun r7 =>
  (matchVer r7).bind fun p2 =>
  some (p1.1, p2.1)

/-- Greedy `.+` before the deterministic tail: try consuming `d` characters
(none of which may be a newline) for `d` from the maximum down to 1. -/
def tryDotLens : Nat → List Char → Option (List Char × List Char)
  | 0, _ => none
  | Nat.succ d, s =>
    match matchFromTail (s.drop (d + 1)) with
    | some g => some g
    | none => tryDotLens d s

/-- Greedy first `\s+` before the `.+`: try consuming `k` whitespace
characters for `k` from the maximum down to 1; each remainder is handed to
the greedy `.+`. -/
def trySpaceLens : Nat → List Char → Option (List Char × List Char)
  | 0, _ => none
  | Nat.succ k, s =>
    match tryDotLens (maxDotLen (s.drop (k + 1))) (s.drop (k + 1)) with
    | some g => some g
    | none => trySpaceLens k s

/-- The lowercased literal `bump`. -/
def bumpLit : List Char := "bump".data

/-- `re.search` for the bump pattern: at each position from the left, match
the literal `bump` case-insensitively, then run the greedy
`\s+.+\s+from...` continuation; the first position where the whole pattern
matches determines the captured groups. -/
def bumpSearch : List Char → Option (List Char × List Char)
  | [] => none
  | c :: cs =>
    match litCI bumpLit (c :: cs) with
    | some rest =>
      (match trySpaceLens ((rest.takeWhile pyIsSpace).length) rest with
       | some g => some g
       | none => bumpSearch cs)
    | none => bumpSearch cs

/-- End-of-match test for `(?:[-+].*)?$` without `re.MULTILINE`: `$` accepts
the end of the string or a position just before a final newline, and `.*`
cannot cross a newline. -/
def dotStarDollar (r : List Char) : Bool :=
  !(r.contains '\n') ||
    (r.getLast? == some '\n' && !(r.dropLast.contains '\n'))

/-- The residue after the third digit group must be empty, a lone trailing
newline, or a `-`/`+` suffix whose remainder `.*$` accepts. -/
def verSuffixOK (r : List Char) : Bool :=
  match r with
  | [] => true
  | c :: rest =>
    (((c == '-') || (c == '+')) && dotStarDollar rest)
      || (c == '\n' && rest.isEmpty)

/-- `parse_version` (lines 28-32): strip the input, match
`^(\d+)\.(\d+)\.(\d+)(?:[-+].*)?$`, and return the three integers. -/
def parse_version (v : String) : Option (Nat × Nat × Nat) :=
  let s := pyStrip v.data
  let p1 := munch pyIsDigit s
  if p1.1.isEmpty then none else
  match p1.2 with
  | '.' :: r2 =>
    let p2 := munch pyIsDigit r2
    if p2.1.isEmpty then none else
    match p2.2 with
    | '.' :: r4 =>
      let p3 := munch pyIsDigit r4
      if p3.1.isEmpty then none else
      if verSuffixOK p3.2 then
        some (digitsToNat p1.1, digitsToNat p2.1, digitsToNat p3.1)
      else none
    | _ => none
  | _ => none

/-- `get_upgrade_type` (lines 35-57): no bump pattern means "not-semver";
otherwise both captured groups are re-parsed and the classification is the
first differing component in the order major, minor, patch, with "unknown"
when nothing differs (or a group fails to re-parse). -/
def get_upgrade_type (title : String) : String :=
  match bumpSearch title.data with
  | none => "not-semver"
  | some (g1, g2) =>
    match parse_version (String.mk g1), parse_version (String.mk g2) with
    | some f, some t =>
      if t.1 != f.1 then "Major"
      else if t.2.1 != f.2.1 then "Minor"
      else if t.2.2 != f.2.2 then "Patch"
      else "unknown"
    | _, _ => "unknown"

/-- The classification rule as the spec words it: compare component-wise in
order major, minor, patch; the first differing component decides; equality
throughout yields "unknown". -/
def classify_spec (f t : Nat × Nat × Nat) : String :=
  if f.1 ≠ t.1 then "Major"
  else if f.2.1 ≠ t.2.1 then "Minor"
  else if f.2.2 ≠ t.2.2 then "Patch"
  else "unknown"

/-! ### Structure of captured version groups -/

/-- Every character kept by `munch p` satisfies `p`. -/
theorem munch_sat (p : Char → Bool) :
    ∀ (s : List Char), ∀ c ∈ (munch p s).1, p c = true := by
  intro s
  induction s with
  | nil => simp [munch]
  | cons x xs ih =>
    simp only [munch]
    by_cases h : p x
    · simp only [h, if_true]
      intro c hc
      rcases List.mem_cons.mp hc with rfl | hc
      · exact h
      · exact ih c hc
    · simp [h]

/-- `munch` stops exactly at the first character outside the class. -/
theorem munch_append (p : Char → Bool) (a : List Char) (x : Char)
    (r : List Char) (ha : ∀ c ∈ a, p c = true) (hx : p x = false) :
    munch p (a ++ x :: r) = (a, x :: r) := by
  induction a with
  | nil => simp [munch, hx]
  | cons y ys ih =>
    have hy : p y = true := ha y (by simp)
    simp only [List.cons_append, munch, hy, if_true]
    simp only [List.append_eq]
    rw [ih (fun c hc => ha c (by simp [hc]))]

/-- `munch` swallows a list made entirely of class characters. -/
theorem munch_all (p : Char → Bool) (l : List Char)
    (h : ∀ c ∈ l, p c = true) : munch p l = (l, []) := by
  induction l with
  | nil => rfl
  | cons y ys ih =>
    have hy : p y = true := h y (by simp)
    simp only [munch, hy, if_true]
    rw [ih (fun c hc => h c (by simp [hc]))]

/-- Shape of a string captured by the group `(\d+\.\d+\.\d+)`: three
nonempty digit runs joined by dots. -/
def VerShape (g : List Char) : Prop :=
  ∃ d1 d2 d3 : List Char,
    d1 ≠ [] ∧ d2 ≠ [] ∧ d3 ≠ [] ∧
    (∀ c ∈ d1, pyIsDigit c = true) ∧ (∀ c ∈ d2, pyIsDigit c = true) ∧
    (∀ c ∈ d3, pyIsDigit c = true) ∧
    g = d1 ++ '.' :: d2 ++ '.' :: d3

/-- A group captured by `matchVer` has the three-digit-runs shape. -/
theorem matchVer_shape {s g r : List Char}
    (h : matchVer s = some (g, r)) : VerShape g := by
  simp only [matchVer] at h
  split at h
  · exact absurd h (by simp)
  · split at h
    · split at h
      · exact absurd h (by simp)
      · split at h
        · split at h
          · exact absurd h (by simp)
          · rw [Option.some.injEq, Prod.mk.injEq] at h
            refine ⟨(munch pyIsDigit s).1, _, _, ?_, ?_, ?_, munch_sat _ _,
              munch_sat _ _, munch_sat _ _, h.1.symm⟩
            · simpa [List.isEmpty_iff] using ‹¬(munch pyIsDigit s).1.isEmpty = true›
            · simpa [List.isEmpty_iff] using
                ‹¬(munch pyIsDigit _).1.isEmpty = true›
            · simpa [List.isEmpty_iff] using
                ‹¬(munch pyIsDigit _).1.isEmpty = true›
        · exact absurd h (by simp)
    · exact absurd h (by simp)

/-- Both groups produced by the deterministic tail have the version shape. -/
theorem matchFromTail_shapes {s : List Char} {g1 g2 : List Char}
    (h : matchFromTail s = some (g1, g2)) : VerShape g1 ∧ VerShape g2 := by
  unfold matchFromTail at h
  simp only [Option.bind_eq_some] at h
  obtain ⟨r1, _, r2, _, r3, _, p1, hp1, r5, _, r6, _, r7, _, p2, hp2, hout⟩ := h
  rw [Option.some.injEq, Prod.mk.injEq] at hout
  obtain ⟨h1, h2⟩ := hout
  subst h1; subst h2
  exact ⟨matchVer_shape ((Prod.mk.eta ▸ hp1 : matchVer r3 = some (p1.1, p1.2))),
    matchVer_shape ((Prod.mk.eta ▸ hp2 : matchVer r7 = some (p2.1, p2.2)))⟩

/-- A successful greedy `.+` scan means the deterministic tail matched at
some suffix. -/
theorem tryDotLens_some :
    ∀ (d : Nat) (s : List Char) (g : List Char × List Char),
      tryDotLens d s = some g → ∃ t, matchFromTail t = some g := by
  intro d
  induction d with
  | zero => intro s g h; simp [tryDotLens] at h
  | succ d ih =>
    intro s g h
    unfold tryDotLens at h
    split at h
    · exact ⟨_, by rw [‹matchFromTail (s.drop (d + 1)) = some _›, h]⟩
    · exact ih s g h

/-- A successful greedy first-`\s+` scan means the deterministic tail
matched at some suffix. -/
theorem trySpaceLens_some :
    ∀ (k : Nat) (s : List Char) (g : List Char × List Char),
      trySpaceLens k s = some g → ∃ t, matchFromTail t = some g := by
  intro k
  induction k with
  | zero => intro s g h; simp [trySpaceLens] at h
  | succ k ih =>
    intro s g h
    unfold trySpaceLens at h
    split at h
    · exact tryDotLens_some _ _ _ (by rw [‹tryDotLens _ _ = some _›, h])
    · exact ih s g h

/-- A successful bump search means the deterministic tail matched at some
suffix of the title. -/
theorem bumpSearch_some :
    ∀ (l : List Char) (g : List Char × List Char),
      bumpSearch l = some g → ∃ t, matchFromTail t = some g := by
  intro l
  induction l with
  | nil => intro g h; simp [bumpSearch] at h
  | cons c cs ih =>
    intro g h
    unfold bumpSearch at h
    split at h
    · split at h
      · exact trySpaceLens_some _ _ _ (by rw [‹trySpaceLens _ _ = some _›, h])
      · exact ih g h
    · exact ih g h


/-- A decimal digit character is not whitespace. -/
theorem digit_not_space {c : Char} (h : pyIsDigit c = true) :
    pyIsSpace c = false := by
  by_contra hb
  rw [Bool.not_eq_false] at hb
  unfold pyIsSpace at hb
  unfold pyIsDigit at h
  simp only [Bool.or_eq_true, beq_iff_eq] at hb
  repeat' rcases hb with hb | hb
  all_goals exact absurd h (by decide)

theorem pyStrip_eq_self {l : List Char}
    (h : ∀ c ∈ l, pyIsSpace c = false) : pyStrip l = l := by
  have hdw : ∀ (m : List Char), (∀ c ∈ m, pyIsSpace c = false) →
      m.dropWhile pyIsSpace = m := by
    intro m hm
    cases m with
    | nil => rfl
    | cons a as => simp [List.dropWhile, hm a (by simp)]
  unfold pyStrip
  rw [hdw l h, hdw l.reverse (fun c hc => h c (List.mem_reverse.mp hc)),
    List.reverse_reverse]

theorem parse_of_shape {g : List Char} (h : VerShape g) :
    ∃ v, parse_version (String.mk g) = some v := by
  obtain ⟨d1, d2, d3, h1, h2, h3, hd1, hd2, hd3, rfl⟩ := h
  have hmem : ∀ c ∈ d1 ++ '.' :: d2 ++ '.' :: d3,
      pyIsDigit c = true ∨ c = '.' := by
    intro c hc
    rcases List.mem_append.mp hc with hx | hx
    · rcases List.mem_append.mp hx with hy | hy
      · exact Or.inl (hd1 c hy)
      · rcases List.mem_cons.mp hy with rfl | hy
        · exact Or.inr rfl
        · exact Or.inl (hd2 c hy)
    · rcases List.mem_cons.mp hx with rfl | hy
      · exact Or.inr rfl
      · exact Or.inl (hd3 c hy)
  have hnospace : ∀ c ∈ d1 ++ '.' :: d2 ++ '.' :: d3, pyIsSpace c = false := by
    intro c hc
    rcases hmem c hc with hd | rfl
    · exact digit_not_space hd
    · decide
  have hshape : d1 ++ '.' :: d2 ++ '.' :: d3
      = d1 ++ ('.' :: (d2 ++ '.' :: d3)) := by simp
  refine ⟨(digitsToNat d1, digitsToNat d2, digitsToNat d3), ?_⟩
  simp only [parse_version]
  rw [pyStrip_eq_self hnospace, hshape,
    munch_append pyIsDigit d1 '.' (d2 ++ '.' :: d3) hd1 (by decide)]
  simp only [List.isEmpty_iff, h1, if_false]
  rw [munch_append pyIsDigit d2 '.' d3 hd2 (by decide)]
  simp only [List.isEmpty_iff, h2, if_false]
  rw [munch_all pyIsDigit d3 hd3]
  simp only [List.isEmpty_iff, h3, if_false]
  rfl

/-- C4 (confirmed): a title with no bump pattern classifies as "not-semver";
otherwise the regex captures two groups, both of which re-parse successfully,
and the result is the first differing component in the order major, minor,
patch, with "unknown" (the code's spelling of the spec's Unknown) when all
three components are equal; the five spec examples evaluate as claimed. -/
theorem upgrade_type_spec :
    (∀ title : String, bumpSearch title.data = none →
        get_upgrade_type title = "not-semver") ∧
    (∀ (title : String) (g1 g2 : List Char),
        bumpSearch title.data = some (g1, g2) →
        ∃ f t, parse_version (String.mk g1) = some f ∧
          parse_version (String.mk g2) = some t ∧
          get_upgrade_type title = classify_spec f t) ∧
    get_upgrade_type "Bump lodash from 4.17.11 to 4.17.21" = "Patch" ∧
    get_upgrade_type "Bump foo from 1.2.3 to 2.0.0" = "Major" ∧
    get_upgrade_type "Bump foo from 1.2.3 to 1.3.0" = "Minor" ∧
    get_upgrade_type "Bump foo from 1.2.3 to 1.2.3" = "unknown" ∧
    get_upgrade_type "Update readme" = "not-semver" := by
  refine ⟨?_, ?_, rfl, rfl, rfl, rfl, rfl⟩
  · intro title h
    unfold get_upgrade_type
    rw [h]
  · intro title g1 g2 h
    obtain ⟨t0, hmt⟩ := bumpSearch_some _ _ h
    obtain ⟨hs1, hs2⟩ := matchFromTail_shapes hmt
    obtain ⟨f, hf⟩ := parse_of_shape hs1
    obtain ⟨t, ht⟩ := parse_of_shape hs2
    refine ⟨f, t, hf, ht, ?_⟩
    unfold get_upgrade_type
    simp only [h, hf, ht]
    unfold classify_spec
    by_cases e1 : f.1 = t.1 <;> by_cases e2 : f.2.1 = t.2.1 <;>
      by_cases e3 : f.2.2 = t.2.2 <;>
      simp [e1, e2, e3, bne_iff_ne, Ne.symm, ne_eq]

/-- Witness for C4 at concrete inputs: a patternless title via the first
part, and a bump title via the second part with the captured groups
evaluated. -/
theorem upgrade_type_spec_witness :
    get_upgrade_type "Update readme" = "not-semver" ∧
    (∃ f t, parse_version (String.mk "1.2.3".data) = some f ∧
       parse_version (String.mk "1.2.4".data) = some t ∧
       get_upgrade_type "Bump a from 1.2.3 to 1.2.4" = classify_spec f t) :=
  ⟨upgrade_type_spec.1 "Update readme" rfl,
   upgrade_type_spec.2.1 "Bump a from 1.2.3 to 1.2.4"
     "1.2.3".data "1.2.4".data rfl⟩

/-- C6, counterexample.  On the claim's own example the code returns
"not-semver": the search pattern `[0-9]+\.[0-9]+\.[0-9]+` accepts only bare
versions, so a `-beta` suffix prevents the bump pattern from matching at all
and no version is ever parsed. -/
theorem suffix_version_cex :
    get_upgrade_type "Bump foo from 1.2.3-beta to 1.2.4" = "not-semver" ∧
    get_upgrade_type "Bump foo from 1.2.3-beta to 1.2.4" ≠ "Patch" := by
  exact ⟨rfl, by decide⟩

/-- C6 (corrected): `parse_version` alone does ignore a `-` or `+` suffix,
but `get_upgrade_type` never feeds it one: the bump search only captures bare
`X.Y.Z` strings, so a title whose version carries a suffix fails the search
and classifies as "not-semver" instead of being compared
component-wise. -/
theorem suffix_version_amended :
    parse_version "1.2.3-beta" = some (1, 2, 3) ∧
    parse_version "2.0.0+build.7" = some (2, 0, 0) ∧
    get_upgrade_type "Bump foo from 1.2.3-beta to 1.2.4" = "not-semver" ∧
    get_upgrade_type "Bump foo from 1.2.3 to 1.2.4" = "Patch" := by
  exact ⟨rfl, rfl, rfl, rfl⟩

/-! ## NotificationManager

The comment store is a list of comment bodies in creation order;
`create_comment` appends.  `post_manual_review` (lines 322-343) and
`post_success_comment` (lines 352-388) share the marker-based upsert below;
`handle_skip_label` (lines 297-319) does not: it creates its comment
unconditionally, with no marker. -/

/-- Whether `needle` starts the list. -/
def startsList : List Char → List Char → Bool
  | [], _ => true
  | _ :: _, [] => false
  | a :: as, b :: bs => (a == b) && startsList as bs

/-- Python `needle in hay` on strings, over the character lists. -/
def containsSub (needle : List Char) : List Char → Bool
  | [] => needle.isEmpty
  | c :: cs => startsList needle (c :: cs) || containsSub needle cs

/-- Python `marker in body`. -/
def strContains (hay needle : String) : Bool :=
  containsSub needle.data hay.data

/-- The marker-based upsert shared by `post_manual_review` and
`post_success_comment`: find the first comment containing the marker; if none
exists create the body, if one exists and differs edit it in place, and if it
is identical do nothing. -/
def upsert_marked_comment (comments : List String) (marker body : String) :
    List String :=
  match comments.findIdx? (fun c => strContains c marker) with
  | some i => if comments.getD i "" == body then comments
      else comments.set i body
  | none => comments ++ [body]

/-- The rendered body of the skip comment in `handle_skip_label`
(lines 302-308): no marker, and the configured label and reasons
interpolated. -/
def skip_comment_body (skip_label : String) (reason_parts : List String) :
    String :=
  "## Dependabot Auto-merge: ⛔ **Skipping auto-merge** due to `"
    ++ skip_label ++ "` label\n\n"
    ++ "### 📋 Decision Details\n"
    ++ String.intercalate "\n" (reason_parts.map (fun p => "- " ++ p))

/-- Effect of `handle_skip_label` on the comment store when the skip label is
present: `issue.create_comment(...)` is called unconditionally, so the body
is appended on every run. -/
def handle_skip_label_comments (comments : List String)
    (no_auto_merge_label : Option String) (labels : List String)
    (reason_parts : List String) : List String :=
  let skip_label := pyLower (no_auto_merge_label.getD "no-auto-merge")
  if (labels.map pyLower).contains skip_label then
    comments ++ [skip_comment_body skip_label reason_parts]
  else comments

/-- C7 (code_bug): two successive runs over an unchanged skipped proposal
leave two live skip comments, not one — `handle_skip_label` posts an
unmarked comment unconditionally, contradicting the module's own "dedupe
markers" documentation and the one-comment-per-marker invariant claimed for
the skip outcome. -/
theorem skip_comment_duplicated :
    (handle_skip_label_comments
        (handle_skip_label_comments [] none ["no-auto-merge"]
          ["Upgrade type: Patch"])
        none ["no-auto-merge"] ["Upgrade type: Patch"]).length = 2 ∧
    (upsert_marked_comment
        (upsert_marked_comment [] "<!-- dependabot-manual-review -->"
          "<!-- dependabot-manual-review -->\nbody")
        "<!-- dependabot-manual-review -->"
        "<!-- dependabot-manual-review -->\nbody").length = 1 := by
  exact ⟨rfl, rfl⟩

/-! ## `run_decision_flow` (lines 404-515) and `main` (lines 531-542)

The external GitHub surface is a set of oracles.  `disable_automerge` and
`enable_automerge` issue GraphQL mutations through `requests.post`; both
treat a non-200 response as a logged warning and return normally, so from
the flow's point of view an arming attempt has three outcomes: a 200
response, a non-200 response (also a normal return), or a raised exception.
Comment-posting attempts either return or raise.  The exception handling is
modelled exactly as written: the disarm call and the success-comment call
are wrapped in `try/except` (with best-effort warning comments whose own
failures are swallowed); the arm call is wrapped and returns exit code 1 on
an exception; the skip-comment and manual-review-comment calls are not
wrapped at all, and `main` catches only `ValueError`, so their exceptions
crash the process. -/

/-- Outcome of an external comment call. -/
inductive Eff where
  | ok
  | raiseExc
deriving DecidableEq

/-- Outcome of the arming GraphQL mutation. -/
inductive ArmEff where
  | ok200
  | non200
  | raiseExc
deriving DecidableEq

/-- Calls made to the auto-merge controller. -/
inductive ExtCall where
  | disarmCall
  | armCall
deriving DecidableEq

/-- How the process run ends: a returned exit code, or an uncaught
exception (itself a non-zero process exit, but with no decision recorded). -/
inductive PyOutcome where
  | exitCode (n : Int)
  | crashed
deriving DecidableEq

/-- Oracles for every external call the flow makes. -/
structure Oracles where
  disarm : Eff
  disarm_warn : Eff
  skip_comment : Eff
  arm : ArmEff
  arm_fail_comment : Eff
  success_comment : Eff
  success_warn : Eff
  local_note : Eff
  manual_comment : Eff
deriving DecidableEq

/-- The decision-relevant inputs of a run, after the PR context has been
resolved. -/
structure FlowInputs where
  upgrade_type : String
  compat_score : PyScore
  threshold : Int
  no_auto_merge_label : Option String
  labels : List String
  author_login : String
  enable_automerge_flag : Bool
deriving DecidableEq

/-- Result of a run: the controller calls made in order, the process
outcome, and the last value written to the MERGE_ALLOWED output. -/
structure RunResult where
  trace : List ExtCall
  outcome : PyOutcome
  merge_allowed : Option Bool
deriving DecidableEq

/-- `run_decision_flow` (lines 419-515): disarm first (failures recovered);
then the skip label short-circuits; then `should_merge and is_dependabot`
arms auto-merge — an arming exception writes MERGE_ALLOWED=false and
returns 1, while a 200 or non-200 response both continue down the success
path, write MERGE_ALLOWED=true and return 0 (success-comment and local-note
failures are recovered); otherwise the manual-review comment is posted and
the run returns 0.  The unguarded comment calls crash on an exception. -/
def run_decision_flow_model (inp : FlowInputs) (orc : Oracles) : RunResult :=
  let skip := handle_skip_label_bool inp.no_auto_merge_label inp.labels
  let should := compute_decision inp.upgrade_type inp.compat_score
    inp.threshold
  let isDep := pyLower inp.author_login == "dependabot[bot]"
  if skip then
    match orc.skip_comment with
    | Eff.raiseExc => ⟨[ExtCall.disarmCall], PyOutcome.crashed, none⟩
    | Eff.ok => ⟨[ExtCall.disarmCall], PyOutcome.exitCode 0, some false⟩
  else if should && isDep then
    match orc.arm with
    | ArmEff.raiseExc =>
        ⟨[ExtCall.disarmCall, ExtCall.armCall], PyOutcome.exitCode 1,
          some false⟩
    | _ =>
        ⟨[ExtCall.disarmCall, ExtCall.armCall], PyOutcome.exitCode 0,
          some true⟩
  else
    match orc.manual_comment with
    | Eff.raiseExc => ⟨[ExtCall.disarmCall], PyOutcome.crashed, none⟩
    | Eff.ok => ⟨[ExtCall.disarmCall], PyOutcome.exitCode 0, some false⟩

/-- `main` (lines 531-542): a missing credential exits 1 before any flow
runs. -/
def main_model (token : Option String) (inp : FlowInputs) (orc : Oracles) :
    RunResult :=
  match token with
  | none => ⟨[], PyOutcome.exitCode 1, none⟩
  | some _ => run_decision_flow_model inp orc

/-- C8 (code_bug): an Allow run whose arming mutation comes back non-200 —
an arming failure — still exits 0, with MERGE_ALLOWED written as true, and
the missing-credential precondition exits 1; the claim requires a non-zero
exit whenever arming fails on an Allow decision. -/
theorem arm_failure_exit_zero :
    run_decision_flow_model
        ⟨"Patch", PyScore.str "unkown", 80, none, [], "dependabot[bot]",
          false⟩
        ⟨Eff.ok, Eff.ok, Eff.ok, ArmEff.non200, Eff.ok, Eff.ok, Eff.ok,
          Eff.ok, Eff.ok⟩
      = ⟨[ExtCall.disarmCall, ExtCall.armCall], PyOutcome.exitCode 0,
          some true⟩ ∧
    main_model none
        ⟨"Patch", PyScore.str "unkown", 80, none, [], "dependabot[bot]",
          false⟩
        ⟨Eff.ok, Eff.ok, Eff.ok, ArmEff.non200, Eff.ok, Eff.ok, Eff.ok,
          Eff.ok, Eff.ok⟩
      = ⟨[], PyOutcome.exitCode 1, none⟩ := by
  exact ⟨rfl, rfl⟩

/-- C9 (confirmed): on every run, whatever the oracles do, the controller
trace starts with the disarm call, and the arm call is appended exactly when
the run's decision is Allow — so an Allow run observes disarm-then-arm and
every Skipped or ManualReviewRequired run observes disarm alone. -/
theorem disarm_then_arm_sequencing :
    ∀ (inp : FlowInputs) (orc : Oracles),
      (run_decision_flow_model inp orc).trace =
        ExtCall.disarmCall ::
          (if decide_impl inp.upgrade_type inp.compat_score inp.threshold
              (handle_skip_label_bool inp.no_auto_merge_label inp.labels)
              (pyLower inp.author_login == "dependabot[bot]")
              = Decision.Allow
           then [ExtCall.armCall] else []) := by
  intro inp orc
  unfold run_decision_flow_model decide_impl
  by_cases hskip : handle_skip_label_bool inp.no_auto_merge_label inp.labels
  · simp only [hskip, if_true]
    cases orc.skip_comment <;> simp
  · simp only [hskip, Bool.false_eq_true, if_false]
    by_cases hsd : (compute_decision inp.upgrade_type inp.compat_score
        inp.threshold && (pyLower inp.author_login == "dependabot[bot]"))
        = true
    · simp only [hsd, if_true]
      cases orc.arm <;> simp
    · simp only [hsd, Bool.false_eq_true, if_false]
      cases orc.manual_comment <;> simp
